import Mathlib

set_option maxHeartbeats 1000000

/-!
Verification development for the `app-llava-context-captioner` CLAMS app.

This file gives a shallow embedding of the annotation pipeline of `app.py`
(class `LlavaCaptioner`) and proves or refutes the specification claims about
it.  External collaborators (the vision-language model, the mmif video/text
helpers, the SDK id generator) are abstract parameters gathered in `Env`;
everything else is translated from the Python source:

- `get_context`   from `LlavaCaptioner.get_context`   (app.py lines 31-36)
- `get_prompt`    from `LlavaCaptioner.get_prompt`    (app.py lines 38-43)
- `process_batch` from the inner `process_batch`      (app.py lines 65-82)
- `step_tf` / `run_tfs`   from the time-frame loop    (app.py lines 84-111)
- `step_iv` / `run_iv`    from the interval loop      (app.py lines 112-132)
- `annotate`      from `LlavaCaptioner._annotate`     (app.py lines 45-134)

Python strings are modelled as `List Char`; `str.replace` is `replaceAll`,
`str.strip` is `pyStrip`, dict lookup with default is `List.lookup` + `getD`.
-/

/-- A TimeFrame annotation from the upstream (transnet) view.  `representatives`
is the truthiness of the optional `representatives` property (present and
non-empty).  `long_id` is the SDK-assigned identifier. -/
structure TimeFrame where
  long_id : String
  label : String
  start : Nat
  stop : Nat
  representatives : Bool
  deriving DecidableEq, Repr

/-- The substitution placeholder `[CONTEXT]` used at app.py line 90. -/
def contextPH : List Char := "[CONTEXT]".toList

/-- Python whitespace characters recognised by `str.strip()`. -/
def isPySpace (c : Char) : Bool :=
  c = ' ' || c = '\t' || c = '\n' || c = '\r' || c = '\x0B' || c = '\x0C'

/-- Python `str.strip()` on a character list. -/
def pyStrip (s : List Char) : List Char :=
  ((s.dropWhile isPySpace).reverse.dropWhile isPySpace).reverse

/-- Test whether `pat` is a prefix of `s` (Python startswith at a position). -/
def matchesAt : List Char → List Char → Bool
  | [], _ => true
  | _ :: _, [] => false
  | p :: ps, c :: cs => p == c && matchesAt ps cs

/-- Python substring test `pat in s`. -/
def occursIn (pat : List Char) : List Char → Bool
  | [] => matchesAt pat []
  | c :: rest => matchesAt pat (c :: rest) || occursIn pat rest

/-- Behaviour of Python `str.replace` with an empty pattern: the replacement is
inserted at every gap.  Never reached by the app (the pattern is `[CONTEXT]`). -/
def interleave (rep : List Char) : List Char → List Char
  | [] => rep
  | c :: rest => rep ++ c :: interleave rep rest

/-- Worker for `replaceAll` on a non-empty pattern `p :: ps`: replace
non-overlapping occurrences left to right, exactly like Python `str.replace`.
The `fuel` argument only makes the recursion structural; every step consumes
at least one character, so `fuel = s.length` (as passed by `replaceAllPos`)
never runs out. -/
def replaceAllGo (p : Char) (ps rep : List Char) : Nat → List Char → List Char
  | _, [] => []
  | 0, s => s
  | fuel + 1, c :: rest =>
    if matchesAt (p :: ps) (c :: rest) then
      rep ++ replaceAllGo p ps rep fuel (List.drop (ps.length + 1) (c :: rest))
    else
      c :: replaceAllGo p ps rep fuel rest

/-- Python `str.replace` for a non-empty pattern `p :: ps`. -/
def replaceAllPos (p : Char) (ps rep s : List Char) : List Char :=
  replaceAllGo p ps rep s.length s

/-- Python `s.replace(pat, rep)` on character lists. -/
def replaceAll (pat rep s : List Char) : List Char :=
  match pat with
  | [] => interleave rep s
  | p :: ps => replaceAllPos p ps rep s

/-- app.py lines 38-43 (`LlavaCaptioner.get_prompt`): resolve the template from
the prompt map (default for unmapped labels); the sentinel `-` yields `None`
(modelled as `none`), otherwise the template is wrapped in the LLaVA chat
markers. -/
def get_prompt (label : String) (prompt_map : List (String × String))
    (default_prompt : String) : Option (List Char) :=
  let prompt := (prompt_map.lookup label).getD default_prompt
  if prompt = "-" then none
  else some ("[INST] <image>\n".toList ++ prompt.toList ++ "\n[/INST]".toList)

/-- app.py lines 31-36 (`LlavaCaptioner.get_context`): slice the text aligned
with the frame extent (external helper, abstracted as `sliceText`) and truncate
it to `max_characters` characters. -/
def get_context (sliceText : Nat → Nat → String) (tf : TimeFrame)
    (max_characters : Nat) : List Char :=
  ((sliceText tf.start tf.stop).toList).take max_characters

/-- The external collaborators of `_annotate`, abstracted:
`gen` is processor+model+batch_decode (one decoded string per prompt is the
documented contract), `sliceText` is `text_document_helper.slice_text` as a
function of the frame bounds, `midFrame`/`repFrame` are
`vdh.extract_mid_frame` / `vdh.extract_representative_frame`, `frameCount` is
`vdh.get_frame_count(video_doc)`, `extractFrame` extracts one frame by index,
and `tdIdOf`/`tpIdOf` give the SDK `long_id` of the n-th text document /
time-point created in the new view. -/
structure Env (Image : Type) where
  gen : List (List Char) → List Image → List (List Char)
  sliceText : Nat → Nat → String
  midFrame : TimeFrame → Image
  repFrame : TimeFrame → Image
  frameCount : Nat
  extractFrame : Nat → Image
  tdIdOf : Nat → String
  tpIdOf : Nat → String

/-- app.py lines 96-101: pick the image for a span.  The representative-frame
call (line 98) is commented out in the source, so both branches use the
midpoint frame. -/
def pick_image {Image : Type} (midF repF : TimeFrame → Image) (tf : TimeFrame) :
    Image :=
  if tf.representatives then
    -- vdh.extract_representative_frame is disabled in the source (line 98)
    midF tf
  else
    midF tf

/-- Contents of the output view: created text documents (in creation order, the
n-th has id `tdIdOf n`), alignment records as (source, target) pairs, and
created time-points (in creation order, the n-th has id `tpIdOf n`). -/
structure ViewState where
  textDocs : List (List Char)
  aligns : List (String × String)
  timePoints : List Nat
  deriving DecidableEq, Repr

/-- One invocation of the model: the arguments handed to `process_batch`. -/
structure BatchCall (Image : Type) where
  prompts : List (List Char)
  images : List Image
  anns : List String
  deriving DecidableEq, Repr

/-- State of the accumulation loop: the three accumulator lists
(`prompts`, `images`, `annotations` in the source), the output view, and the
log of model invocations made so far. -/
structure LoopSt (Image : Type) where
  prompts : List (List Char)
  images : List Image
  anns : List String
  view : ViewState
  calls : List (BatchCall Image)
  deriving DecidableEq, Repr

/-- app.py lines 65-82 (inner `process_batch`): run the model on the batch,
decode, and for each decoded text (zipped with its source annotation) create a
text document and an alignment from the source span id to the new document. -/
def process_batch {Image : Type} (env : Env Image) (prompts : List (List Char))
    (images : List Image) (anns : List String) (vs : ViewState) : ViewState :=
  let generated_texts := env.gen prompts images
  (generated_texts.zip anns).foldl
    (fun s pr =>
      { s with
        textDocs := s.textDocs ++ [pyStrip pr.1],
        aligns := s.aligns ++ [(pr.2, env.tdIdOf s.textDocs.length)] })
    vs

/-- app.py lines 85-108: process one time-frame.  Note the source computes
`prompt.replace("[CONTEXT]", context)` (line 90) immediately after
`get_prompt`, before the `if not prompt: continue` test (line 93) — when
`get_prompt` returned `None` this raises `AttributeError`. -/
def step_tf {Image : Type} (env : Env Image) (label_map : List (String × String))
    (default_prompt : String) (batch_size : Nat) (st : LoopSt Image)
    (tf : TimeFrame) : Except String (LoopSt Image) :=
  let context := get_context env.sliceText tf 200
  match get_prompt tf.label label_map default_prompt with
  | none => Except.error "AttributeError: NoneType object has no attribute replace"
  | some p =>
    let prompt := replaceAll contextPH context p
    if prompt = [] then Except.ok st
    else
      let image := pick_image env.midFrame env.repFrame tf
      let prompts := st.prompts ++ [prompt]
      let images := st.images ++ [image]
      let anns := st.anns ++ [tf.long_id]
      if prompts.length = batch_size then
        Except.ok
          { prompts := [], images := [], anns := [],
            view := process_batch env prompts images anns st.view,
            calls := st.calls ++ [⟨prompts, images, anns⟩] }
      else
        Except.ok { st with prompts := prompts, images := images, anns := anns }

/-- The `for timeframe in list(timeframes)` loop (app.py lines 85-108). -/
def run_tfs {Image : Type} (env : Env Image) (label_map : List (String × String))
    (default_prompt : String) (batch_size : Nat) :
    List TimeFrame → LoopSt Image → Except String (LoopSt Image)
  | [], st => Except.ok st
  | tf :: rest, st =>
    match step_tf env label_map default_prompt batch_size st tf with
    | Except.error e => Except.error e
    | Except.ok st' => run_tfs env label_map default_prompt batch_size rest st'

/-- app.py lines 117-129: process one sampled frame number.  The source rebinds
the name `images` to the extracted-frames list (line 115) and then appends to
it inside the loop (line 121), so the accumulator passed to `process_batch`
starts out holding all extracted frames; the loop itself always reads the i-th
originally-extracted frame (`zip` captured the original list object). -/
def step_iv {Image : Type} (env : Env Image) (default_prompt : String)
    (batch_size : Nat) (st : LoopSt Image) (frame_number : Nat) : LoopSt Image :=
  let prompt := default_prompt.toList
  let image := env.extractFrame frame_number
  let prompts := st.prompts ++ [prompt]
  let images := st.images ++ [image]
  let tpId := env.tpIdOf st.view.timePoints.length
  let view := { st.view with timePoints := st.view.timePoints ++ [frame_number] }
  let anns := st.anns ++ [tpId]
  if prompts.length = batch_size then
    { prompts := [], images := [], anns := [],
      view := process_batch env prompts images anns view,
      calls := st.calls ++ [⟨prompts, images, anns⟩] }
  else
    { prompts := prompts, images := images, anns := anns, view := view,
      calls := st.calls }

/-- The `for frame_number, image in zip(frame_numbers, images)` loop. -/
def run_iv {Image : Type} (env : Env Image) (default_prompt : String)
    (batch_size : Nat) : List Nat → LoopSt Image → LoopSt Image
  | [], st => st
  | fn :: rest, st =>
    run_iv env default_prompt batch_size rest
      (step_iv env default_prompt batch_size st fn)

/-- app.py lines 110-111 / 131-132: flush a final non-empty partial batch. -/
def finish {Image : Type} (env : Env Image) (st : LoopSt Image) : LoopSt Image :=
  if st.prompts = [] then st
  else
    { st with
      view := process_batch env st.prompts st.images st.anns st.view,
      calls := st.calls ++ [⟨st.prompts, st.images, st.anns⟩] }

/-- Runtime parameters reaching `_annotate`.  `frameInterval` and `batchSize`
are `none` when absent from the request (they are not declared in
`metadata.py`, so the SDK injects no default for them); `defaultPrompt` and
`promptMap` are declared with defaults in `metadata.py` and hence present. -/
structure Params where
  promptMap : List (String × String)
  defaultPrompt : String
  frameInterval : Option Nat
  batchSize : Option Nat
  deriving DecidableEq, Repr

/-- An input view: its `metadata["app"]` string and its TimeFrame annotations.
`get_annotations(AnnotationTypes.TimeFrame)` is modelled, following the spec
of the span resolver, as returning this list. -/
structure InputView where
  app : String
  timeFrames : List TimeFrame
  deriving DecidableEq, Repr

/-- The parts of the input MMIF document that `_annotate` consults: the video
documents (by id) and the views for the first video document. -/
structure MmifIn where
  videoDocs : List String
  views : List InputView
  deriving DecidableEq, Repr

/-- The hardcoded app id required of the input view (app.py line 54). -/
def transnetApp : String := "http://apps.clams.ai/transnet-wrapper/unresolvable"

/-- app.py line 48: `parameters.get(frameInterval, 30)` in-code fallback. -/
def resolveFrameInterval (p : Params) : Nat := p.frameInterval.getD 30

/-- app.py line 49: `parameters.get(batchSize, 8)` in-code fallback. -/
def resolveBatchSize (p : Params) : Nat := p.batchSize.getD 8

/-- app.py line 141: `--frameInterval` CLI default. -/
def cliDefaultFrameInterval : Nat := 10

/-- app.py line 142: `--batchSize` CLI default. -/
def cliDefaultBatchSize : Nat := 4

/-- app.py line 114: `list(range(0, total_frames, frame_interval))`. -/
def frame_numbers (total_frames frame_interval : Nat) : List Nat :=
  List.range' 0 ((total_frames + frame_interval - 1) / frame_interval) frame_interval

/-- The freshly created output view (app.py line 55). -/
def emptyView : ViewState := ⟨[], [], []⟩

/-- The empty accumulator state (app.py lines 61-63). -/
def initSt (Image : Type) : LoopSt Image := ⟨[], [], [], emptyView, []⟩

/-- app.py lines 45-134 (`LlavaCaptioner._annotate`).  The two `[0]` index
operations at lines 51 and 54 raise `IndexError` when no video document or no
transnet view exists.  With time-frames present the time-frame loop runs,
otherwise frames are sampled at `frame_interval` (a zero interval would make
Python `range` raise `ValueError`).  In the interval branch the initial image
accumulator already holds the extracted frames (line 115 rebinding). -/
def annotate {Image : Type} (env : Env Image) (parameters : Params)
    (mmif : MmifIn) : Except String (LoopSt Image) :=
  let label_map := parameters.promptMap
  let default_prompt := parameters.defaultPrompt
  let frame_interval := resolveFrameInterval parameters
  let batch_size := resolveBatchSize parameters
  match mmif.videoDocs with
  | [] => Except.error "IndexError: list index out of range"
  | _ :: _ =>
    match mmif.views.filter (fun v => v.app == transnetApp) with
    | [] => Except.error "IndexError: list index out of range"
    | input_view :: _ =>
      let timeframes := input_view.timeFrames
      if timeframes = [] then
        if frame_interval = 0 then
          Except.error "ValueError: range arg 3 must not be zero"
        else
          let fns := frame_numbers env.frameCount frame_interval
          Except.ok (finish env (run_iv env default_prompt batch_size fns
            { prompts := [], images := fns.map env.extractFrame, anns := [],
              view := emptyView, calls := [] }))
      else
        (run_tfs env label_map default_prompt batch_size timeframes
          (initSt Image)).map (finish env)

/-- Expected alignment records for sources `ss` when the next text document to
be created has creation index `base`. -/
def mkAligns (td : Nat → String) : Nat → List String → List (String × String)
  | _, [] => []
  | base, s :: ss => (s, td base) :: mkAligns td (base + 1) ss

/-- Observer: did the run succeed. -/
def isOkE {ε α : Type} : Except ε α → Bool
  | Except.ok _ => true
  | Except.error _ => false

/-- Observer: sizes of the prompt batches handed to the model, per invocation. -/
def callSizes {Image : Type} : Except String (LoopSt Image) → Option (List Nat)
  | Except.error _ => none
  | Except.ok st => some (st.calls.map (fun c => c.prompts.length))

/-- Observer: number of model invocations. -/
def callCount {Image : Type} : Except String (LoopSt Image) → Option Nat
  | Except.error _ => none
  | Except.ok st => some st.calls.length

/-- Observer: the `source` properties of the emitted alignments, in order. -/
def alignSources {Image : Type} : Except String (LoopSt Image) → Option (List String)
  | Except.error _ => none
  | Except.ok st => some (st.view.aligns.map Prod.fst)

/-- Observer: the `target` properties of the emitted alignments, in order. -/
def alignTargets {Image : Type} : Except String (LoopSt Image) → Option (List String)
  | Except.error _ => none
  | Except.ok st => some (st.view.aligns.map Prod.snd)

/-- Observer: number of emitted text documents. -/
def textCount {Image : Type} : Except String (LoopSt Image) → Option Nat
  | Except.error _ => none
  | Except.ok st => some st.view.textDocs.length

/-- Observer: number of emitted alignment records. -/
def alignCount {Image : Type} : Except String (LoopSt Image) → Option Nat
  | Except.error _ => none
  | Except.ok st => some st.view.aligns.length

instance {ε α : Type} [DecidableEq ε] [DecidableEq α] : DecidableEq (Except ε α) :=
  fun a b =>
    match a, b with
    | Except.error x, Except.error y =>
      if h : x = y then isTrue (by rw [h]) else
        isFalse (by intro he; injection he; contradiction)
    | Except.error _, Except.ok _ => isFalse (by intro he; injection he)
    | Except.ok _, Except.error _ => isFalse (by intro he; injection he)
    | Except.ok x, Except.ok y =>
      if h : x = y then isTrue (by rw [h]) else
        isFalse (by intro he; injection he; contradiction)

/-- A concrete environment over `Image := Nat` used for evaluations: the model
echoes its prompts (one output per prompt), slicing yields a fixed string, a
frame is represented by its index, and SDK ids are `td0, td1, ...` and
`tp0, tp1, ...`. -/
def envW : Env Nat :=
  { gen := fun prompts _ => prompts,
    sliceText := fun _ _ => "ctx",
    midFrame := fun tf => (tf.start + tf.stop) / 2,
    repFrame := fun _ => 777,
    frameCount := 100,
    extractFrame := fun n => n,
    tdIdOf := fun n => "td" ++ toString n,
    tpIdOf := fun n => "tp" ++ toString n }

/-- A time-frame whose label the prompt map sends to the skip sentinel. -/
def tfSkip : TimeFrame := ⟨"v1:tf1", "bars", 10, 30, false⟩

/-- Unmapped time-frames used in concrete runs. -/
def tfW1 : TimeFrame := ⟨"v1:tf1", "A", 0, 10, false⟩

def tfW2 : TimeFrame := ⟨"v1:tf2", "B", 10, 20, false⟩

def tfW3 : TimeFrame := ⟨"v1:tf3", "C", 20, 30, true⟩

/-- A time-frame whose label maps to a placeholder-free template. -/
def tfW : TimeFrame := ⟨"v9:tf9", "A", 2, 6, true⟩

/-- Resolved prompt for label A under the map A to hello: the wrapped template. -/
def pW : List Char := "[INST] <image>\nhello\n[/INST]".toList

/-- A non-empty pattern that never occurs in `s` is replaced nowhere. -/
theorem replaceAllGo_of_occursIn_eq_false (p : Char) (ps rep : List Char) :
    ∀ fuel s, s.length ≤ fuel → occursIn (p :: ps) s = false →
      replaceAllGo p ps rep fuel s = s := by
  intro fuel
  induction fuel with
  | zero =>
    intro s hs _
    cases s with
    | nil => rfl
    | cons c rest => simp at hs
  | succ n ih =>
    intro s hs h
    cases s with
    | nil => rfl
    | cons c rest =>
      rw [occursIn, Bool.or_eq_false_iff] at h
      rw [replaceAllGo, if_neg (by simp [h.1])]
      rw [ih rest (by simpa using Nat.le_of_succ_le_succ hs) h.2]

theorem replaceAllPos_of_occursIn_eq_false (p : Char) (ps rep : List Char) :
    ∀ s, occursIn (p :: ps) s = false → replaceAllPos p ps rep s = s :=
  fun s h => replaceAllGo_of_occursIn_eq_false p ps rep s.length s (Nat.le_refl _) h

/-- Python `str.replace` is the identity when the (non-empty) pattern does not
occur in the subject string. -/
theorem replaceAll_of_occursIn_eq_false (pat rep s : List Char) (hpat : pat ≠ [])
    (h : occursIn pat s = false) : replaceAll pat rep s = s := by
  cases pat with
  | nil => exact absurd rfl hpat
  | cons p ps => exact replaceAllPos_of_occursIn_eq_false p ps rep s h

/-- Claim C9: for every annotated time-frame span, including spans carrying
truthy `representatives` markers, the image extractor returns the temporal
midpoint frame of the span (the representative-frame path is bypassed); being
a pure function of the span, the result is deterministic. -/
theorem C9_midpoint_frame {Image : Type} (midF repF : TimeFrame → Image)
    (tf : TimeFrame) : pick_image midF repF tf = midF tf := by
  unfold pick_image
  split <;> rfl

/-- Claim C6: the context string substituted into a rendered prompt (computed
by `get_context` with the configured maximum of 200 characters, as called at
app.py line 87) never exceeds 200 characters. -/
theorem C6_context_truncated (sliceText : Nat → Nat → String) (tf : TimeFrame) :
    (get_context sliceText tf 200).length ≤ 200 := by
  simp only [get_context, List.length_take]
  omega

/-- Claim C7: when `frameInterval` is absent `_annotate` falls back to 30 and
when `batchSize` is absent it falls back to 8, while the CLI parser declares
defaults 10 and 4 respectively; the in-code fallbacks differ from the CLI
defaults. -/
theorem C7_inconsistent_defaults (p : Params) (hf : p.frameInterval = none)
    (hb : p.batchSize = none) :
    resolveFrameInterval p = 30 ∧ resolveBatchSize p = 8 ∧
    cliDefaultFrameInterval = 10 ∧ cliDefaultBatchSize = 4 ∧
    resolveFrameInterval p ≠ cliDefaultFrameInterval ∧
    resolveBatchSize p ≠ cliDefaultBatchSize := by
  simp [resolveFrameInterval, resolveBatchSize, cliDefaultFrameInterval,
    cliDefaultBatchSize, hf, hb]

theorem C7_inconsistent_defaults_witness :
    resolveFrameInterval ⟨[], "d", none, none⟩ = 30 ∧
    resolveBatchSize ⟨[], "d", none, none⟩ = 8 ∧
    cliDefaultFrameInterval = 10 ∧ cliDefaultBatchSize = 4 ∧
    resolveFrameInterval ⟨[], "d", none, none⟩ ≠ cliDefaultFrameInterval ∧
    resolveBatchSize ⟨[], "d", none, none⟩ ≠ cliDefaultBatchSize :=
  C7_inconsistent_defaults ⟨[], "d", none, none⟩ rfl rfl

/-- Claim C10: every invocation of `_annotate` (also on inputs with no
time-frame annotations, which would take the interval-sampling branch) first
indexes the video document list and the list of views whose app metadata is
the hardcoded transnet id; when either is empty the indexing raises an
unhandled `IndexError` before any span resolution, prompt rendering or model
invocation happens (the quantification over `env` shows no collaborator,
in particular not the model, is consulted). -/
theorem C10_required_view_guard {Image : Type} (env : Env Image)
    (parameters : Params) (mmif : MmifIn)
    (h : mmif.videoDocs = [] ∨
      mmif.views.filter (fun v => v.app == transnetApp) = []) :
    annotate env parameters mmif = Except.error "IndexError: list index out of range" := by
  rcases h with h | h
  · simp [annotate, h]
  · cases hv : mmif.videoDocs <;> simp [annotate, hv, h]

theorem C10_required_view_guard_witness :
    annotate envW ⟨[], "Describe.", none, none⟩
      (⟨["d1"], [⟨"http://apps.clams.ai/some-other-app", []⟩]⟩ : MmifIn) =
    Except.error "IndexError: list index out of range" :=
  C10_required_view_guard envW ⟨[], "Describe.", none, none⟩
    ⟨["d1"], [⟨"http://apps.clams.ai/some-other-app", []⟩]⟩ (Or.inr (by decide))

/-- Claim C1 (code bug): a span whose resolved template is the skip sentinel
`-` is NOT silently omitted: `get_prompt` returns `None` and line 90 calls
`.replace` on it, so the run aborts with `AttributeError` instead of skipping.
This theorem evaluates the pipeline at the failing input. -/
theorem C1_skip_sentinel_aborts :
    annotate envW ⟨[("bars", "-")], "Describe the frame.", none, none⟩
      ⟨["d1"], [⟨transnetApp, [tfSkip]⟩]⟩ =
    Except.error "AttributeError: NoneType object has no attribute replace" := by
  decide

/-- Claim C3 (code bug): with one non-skipped span (N = 1) followed by a
skip-labelled span, the claimed output (one text annotation and one alignment)
is not produced: the run aborts with `AttributeError` at the skipped span.
This theorem evaluates the pipeline at the failing input. -/
theorem C3_invariant_broken_by_skip :
    annotate envW ⟨[("B", "-")], "Describe scene", none, some 8⟩
      ⟨["d1"], [⟨transnetApp, [tfW1, tfW2]⟩]⟩ =
    Except.error "AttributeError: NoneType object has no attribute replace" := by
  decide

/-- Claim C2 (code bug): end-to-end interval scenario — no pre-existing
time-frames, 100 frames, frameInterval 25, batchSize 4.  Spans are resolved at
[0, 25, 50, 75]; exactly one model invocation happens and four text documents,
four alignments and four time-points are produced as claimed, but the single
invocation receives EIGHT images ([0,25,50,75,0,25,50,75] here): line 115
rebinds `images` to the extracted-frames list, which then doubles as the batch
accumulator, duplicating every sampled frame. -/
theorem C2_interval_scenario :
    annotate envW ⟨[], "Describe!", some 25, some 4⟩
      ⟨["d1"], [⟨transnetApp, []⟩]⟩ =
    Except.ok
      { prompts := [], images := [], anns := [],
        view :=
          { textDocs := List.replicate 4 "Describe!".toList,
            aligns := [("tp0", "td0"), ("tp1", "td1"), ("tp2", "td2"),
              ("tp3", "td3")],
            timePoints := [0, 25, 50, 75] },
        calls :=
          [⟨List.replicate 4 "Describe!".toList,
            [0, 25, 50, 75, 0, 25, 50, 75],
            ["tp0", "tp1", "tp2", "tp3"]⟩] } := by
  decide

/-- Claim C8: when the resolved prompt (the string `get_prompt` returns) does
not contain the `[CONTEXT]` placeholder, the substitution step at app.py line
90 returns it unchanged, and processing the span does not raise. -/
theorem C8_missing_placeholder_noop {Image : Type} (env : Env Image)
    (pm : List (String × String)) (dp : String) (B : Nat) (st : LoopSt Image)
    (tf : TimeFrame) (p : List Char)
    (hp : get_prompt tf.label pm dp = some p)
    (hocc : occursIn contextPH p = false) :
    replaceAll contextPH (get_context env.sliceText tf 200) p = p ∧
    isOkE (step_tf env pm dp B st tf) = true := by
  have hno : ∀ ctx, replaceAll contextPH ctx p = p := fun ctx =>
    replaceAll_of_occursIn_eq_false contextPH ctx p (by simp [contextPH]) hocc
  refine ⟨hno _, ?_⟩
  have : ∃ st', step_tf env pm dp B st tf = Except.ok st' := by
    unfold step_tf
    rw [hp]
    dsimp only
    split
    · exact ⟨st, rfl⟩
    · split
      · exact ⟨_, rfl⟩
      · exact ⟨_, rfl⟩
  obtain ⟨st', hst⟩ := this
  rw [hst]
  rfl

theorem C8_missing_placeholder_noop_witness :
    replaceAll contextPH (get_context envW.sliceText tfW 200) pW = pW ∧
    isOkE (step_tf envW [("A", "hello")] "dflt" 8 (initSt Nat) tfW) = true :=
  C8_missing_placeholder_noop envW [("A", "hello")] "dflt" 8 (initSt Nat) tfW pW
    (by decide) (by decide)

theorem mkAligns_cons (td : Nat → String) (b : Nat) (s : String) (ss : List String) :
    mkAligns td b (s :: ss) = (s, td b) :: mkAligns td (b + 1) ss := rfl

theorem mkAligns_append (td : Nat → String) :
    ∀ (xs ys : List String) (b : Nat),
      mkAligns td b (xs ++ ys) = mkAligns td b xs ++ mkAligns td (b + xs.length) ys := by
  intro xs
  induction xs with
  | nil => intro ys b; simp [mkAligns]
  | cons x xs ih =>
    intro ys b
    simp only [List.cons_append, mkAligns_cons, ih, List.length_cons]
    have : b + 1 + xs.length = b + (xs.length + 1) := by omega
    rw [this]

theorem mkAligns_map_fst (td : Nat → String) :
    ∀ (ss : List String) (b : Nat), (mkAligns td b ss).map Prod.fst = ss := by
  intro ss
  induction ss with
  | nil => intro b; rfl
  | cons s ss ih => intro b; simp [mkAligns_cons, ih]

theorem mkAligns_map_snd (td : Nat → String) :
    ∀ (ss : List String) (b : Nat),
      (mkAligns td b ss).map Prod.snd = (List.range ss.length).map (fun i => td (b + i)) := by
  intro ss
  induction ss with
  | nil => intro b; rfl
  | cons s ss ih =>
    intro b
    simp only [mkAligns_cons, List.map_cons, List.length_cons,
      List.range_succ_eq_map, ih, List.map_map]
    congr 1
    apply List.map_congr_left
    intro i _
    simp only [Function.comp_apply, Nat.succ_eq_add_one]
    congr 1
    omega

theorem mkAligns_length (td : Nat → String) :
    ∀ (ss : List String) (b : Nat), (mkAligns td b ss).length = ss.length := by
  intro ss
  induction ss with
  | nil => intro b; rfl
  | cons s ss ih => intro b; simp [mkAligns_cons, ih]

theorem pb_fold_spec (td : Nat → String) :
    ∀ (pairs : List (List Char × String)) (vs : ViewState),
      pairs.foldl
        (fun s pr =>
          { s with
            textDocs := s.textDocs ++ [pyStrip pr.1],
            aligns := s.aligns ++ [(pr.2, td s.textDocs.length)] }) vs =
      { vs with
        textDocs := vs.textDocs ++ pairs.map (fun pr => pyStrip pr.1),
        aligns := vs.aligns ++ mkAligns td vs.textDocs.length (pairs.map Prod.snd) } := by
  intro pairs
  induction pairs with
  | nil => intro vs; simp [mkAligns]
  | cons pr rest ih =>
    intro vs
    rw [List.foldl_cons, ih]
    simp [mkAligns_cons, List.append_assoc, List.length_append]

/-- Characterisation of `process_batch` under the documented model contract
(one decoded string per prompt) when sources and prompts are matched. -/
theorem process_batch_spec {Image : Type} (env : Env Image)
    (prompts : List (List Char)) (images : List Image) (anns : List String)
    (vs : ViewState)
    (hgen : (env.gen prompts images).length = prompts.length)
    (hlen : anns.length = prompts.length) :
    process_batch env prompts images anns vs =
      { vs with
        textDocs := vs.textDocs ++ (env.gen prompts images).map pyStrip,
        aligns := vs.aligns ++ mkAligns env.tdIdOf vs.textDocs.length anns } := by
  unfold process_batch
  rw [pb_fold_spec]
  have h1 : ((env.gen prompts images).zip anns).map Prod.snd = anns :=
    List.map_snd_zip _ _ (by omega)
  have h2 : ((env.gen prompts images).zip anns).map (fun pr => pyStrip pr.1) =
      (env.gen prompts images).map pyStrip := by
    have := List.map_fst_zip (env.gen prompts images) anns (by omega)
    calc ((env.gen prompts images).zip anns).map (fun pr => pyStrip pr.1)
        = (((env.gen prompts images).zip anns).map Prod.fst).map pyStrip := by
          simp [List.map_map]
      _ = (env.gen prompts images).map pyStrip := by rw [this]
  rw [h1, h2]

/-- Every prompt `get_prompt` returns starts with the wrapper `[I`. -/
theorem get_prompt_shape (label : String) (pm : List (String × String))
    (dp : String) (p : List Char) (hp : get_prompt label pm dp = some p) :
    ∃ r, p = '[' :: 'I' :: r := by
  simp only [get_prompt] at hp
  split at hp
  · exact absurd hp (by simp)
  · refine ⟨"NST] <image>\n".toList ++
      ((pm.lookup label).getD dp).toList ++ "\n[/INST]".toList, ?_⟩
    have := Option.some.inj hp
    rw [← this]
    rfl

theorem matchesAt_ph_bracketI (r : List Char) :
    matchesAt contextPH ('[' :: 'I' :: r) = false := by
  simp [contextPH, matchesAt]

/-- The rendered prompt of a non-skipped span is never the empty string, so
the `if not prompt: continue` test at app.py line 93 never fires. -/
theorem rendered_ne_nil (ctx r : List Char) :
    replaceAll contextPH ctx ('[' :: 'I' :: r) ≠ [] := by
  show replaceAllGo '[' "CONTEXT]".toList ctx (r.length + 1 + 1) ('[' :: 'I' :: r) ≠ []
  rw [replaceAllGo, if_neg (by simp [matchesAt])]
  exact List.cons_ne_nil _ _

/-- Characterisation of the final flush (app.py lines 110-111). -/
theorem finish_spec {Image : Type} (env : Env Image) (st : LoopSt Image)
    (hgen : ∀ ps imgs, (env.gen ps imgs).length = ps.length)
    (hp : st.prompts.length = st.anns.length) :
    (finish env st).view.aligns =
      st.view.aligns ++ mkAligns env.tdIdOf st.view.textDocs.length st.anns ∧
    (finish env st).view.textDocs.length =
      st.view.textDocs.length + st.anns.length ∧
    (finish env st).view.timePoints = st.view.timePoints ∧
    (finish env st).calls.map (fun c => c.prompts.length) =
      st.calls.map (fun c => c.prompts.length) ++
        (if st.anns.length = 0 then [] else [st.anns.length]) := by
  unfold finish
  split
  · rename_i hnil
    have h0 : st.anns.length = 0 := by rw [← hp, hnil]; rfl
    have hannil : st.anns = [] := List.eq_nil_of_length_eq_zero h0
    simp [h0, hannil, mkAligns]
  · rename_i hnil
    have hlen : st.anns.length ≠ 0 := by
      intro h0
      exact hnil (List.eq_nil_of_length_eq_zero (hp.trans h0))
    rw [process_batch_spec env st.prompts st.images st.anns st.view
      (hgen _ _) hp.symm]
    simp [hlen, hp, hgen]

/-- Invariant of the time-frame loop: starting from a well-formed accumulator
state (matched list lengths, fewer pending items than the batch size), a run
over spans none of which resolves to the skip sentinel succeeds; full batches
of exactly `B` items are flushed in order, alignments are emitted in span
order against consecutively created text documents, and the pending remainder
is the tail of the source ids. -/
theorem run_tfs_spec {Image : Type} (env : Env Image) (pm : List (String × String))
    (dp : String) (B : Nat)
    (hgen : ∀ ps imgs, (env.gen ps imgs).length = ps.length) (hB : 0 < B) :
    ∀ (tfs : List TimeFrame), (∀ tf ∈ tfs, get_prompt tf.label pm dp ≠ none) →
    ∀ (st : LoopSt Image),
      st.prompts.length = st.anns.length →
      st.images.length = st.anns.length →
      st.anns.length < B →
      ∃ st', run_tfs env pm dp B tfs st = Except.ok st' ∧
        st'.view.aligns = st.view.aligns ++
          mkAligns env.tdIdOf st.view.textDocs.length
            ((st.anns ++ tfs.map TimeFrame.long_id).take
              (B * ((st.anns.length + tfs.length) / B))) ∧
        st'.view.textDocs.length =
          st.view.textDocs.length + B * ((st.anns.length + tfs.length) / B) ∧
        st'.view.timePoints = st.view.timePoints ∧
        st'.anns = (st.anns ++ tfs.map TimeFrame.long_id).drop
          (B * ((st.anns.length + tfs.length) / B)) ∧
        st'.prompts.length = st'.anns.length ∧
        st'.images.length = st'.anns.length ∧
        st'.anns.length = (st.anns.length + tfs.length) % B ∧
        st'.calls.map (fun c => c.prompts.length) =
          st.calls.map (fun c => c.prompts.length) ++
            List.replicate ((st.anns.length + tfs.length) / B) B := by
  intro tfs
  induction tfs with
  | nil =>
    intro _ st hpl him hlt
    refine ⟨st, rfl, ?_, ?_, rfl, ?_, hpl, him, ?_, ?_⟩
    · simp [Nat.div_eq_of_lt hlt, mkAligns]
    · simp [Nat.div_eq_of_lt hlt]
    · simp [Nat.div_eq_of_lt hlt]
    · simp [Nat.mod_eq_of_lt hlt]
    · simp [Nat.div_eq_of_lt hlt]
  | cons tf rest ih =>
    intro hns st hpl him hlt
    obtain ⟨p, hp⟩ : ∃ p, get_prompt tf.label pm dp = some p := by
      cases h : get_prompt tf.label pm dp with
      | none => exact absurd h (hns tf (List.mem_cons_self _ _))
      | some p => exact ⟨p, rfl⟩
    obtain ⟨r, hpr⟩ := get_prompt_shape tf.label pm dp p hp
    have hne : replaceAll contextPH (get_context env.sliceText tf 200) p ≠ [] := by
      rw [hpr]; exact rendered_ne_nil _ r
    simp only [List.map_cons, List.length_cons]
    rw [run_tfs]
    unfold step_tf
    rw [hp]
    dsimp only
    rw [if_neg hne]
    by_cases hfl :
        (st.prompts ++ [replaceAll contextPH (get_context env.sliceText tf 200) p]).length = B
    · -- the appended item fills the batch: flush (app.py lines 106-108)
      have hflL : st.anns.length + 1 = B := by
        simpa [hpl] using hfl
      rw [if_pos hfl]
      dsimp only
      have hlenA : (st.anns ++ [tf.long_id]).length =
          (st.prompts ++ [replaceAll contextPH (get_context env.sliceText tf 200) p]).length := by
        simp [hpl]
      obtain ⟨st', hrun, ha, hd, ht, hanns, hpl', him', hmod, hcalls⟩ :=
        ih (fun t htm => hns t (List.mem_cons_of_mem _ htm))
          { prompts := [], images := [], anns := [],
            view := process_batch env
              (st.prompts ++ [replaceAll contextPH (get_context env.sliceText tf 200) p])
              (st.images ++ [pick_image env.midFrame env.repFrame tf])
              (st.anns ++ [tf.long_id]) st.view,
            calls := st.calls ++
              [⟨st.prompts ++ [replaceAll contextPH (get_context env.sliceText tf 200) p],
                st.images ++ [pick_image env.midFrame env.repFrame tf],
                st.anns ++ [tf.long_id]⟩] }
          rfl rfl hB
      rw [process_batch_spec env _ _ _ _ (hgen _ _) hlenA] at ha hd ht
      dsimp only at ha hd ht hanns hmod hcalls
      simp only [List.nil_append, List.length_nil, Nat.zero_add] at ha hd hanns hmod hcalls
      have hq : (st.anns.length + (rest.length + 1)) / B = rest.length / B + 1 := by
        rw [show st.anns.length + (rest.length + 1) = rest.length + B from by omega]
        exact Nat.add_div_right _ hB
      have hqmul : B * ((st.anns.length + (rest.length + 1)) / B) =
          B * (rest.length / B) + B := by
        rw [hq, Nat.mul_succ]
      have hmodE : (st.anns.length + (rest.length + 1)) % B = rest.length % B := by
        rw [show st.anns.length + (rest.length + 1) = B + rest.length from by omega]
        exact Nat.add_mod_left B rest.length
      have hSlen : (st.anns ++ [tf.long_id]).length = B := by
        simp only [List.length_append, List.length_cons, List.length_nil]
        omega
      have hD1 : ((env.gen
          (st.prompts ++ [replaceAll contextPH (get_context env.sliceText tf 200) p])
          (st.images ++ [pick_image env.midFrame env.repFrame tf])).map pyStrip).length
          = B := by
        rw [List.length_map, hgen]
        simp only [List.length_append, List.length_cons, List.length_nil]
        omega
      have hsplit : st.anns ++ (tf.long_id :: rest.map TimeFrame.long_id) =
          (st.anns ++ [tf.long_id]) ++ rest.map TimeFrame.long_id := by
        simp
      have htake : (st.anns ++ (tf.long_id :: rest.map TimeFrame.long_id)).take
          (B * ((st.anns.length + (rest.length + 1)) / B)) =
          (st.anns ++ [tf.long_id]) ++
            (rest.map TimeFrame.long_id).take (B * (rest.length / B)) := by
        rw [hsplit, hqmul, List.take_append_eq_append_take,
          List.take_of_length_le (by rw [hSlen]; exact Nat.le_add_left _ _), hSlen,
          Nat.add_sub_cancel]
      have hdrop : (st.anns ++ (tf.long_id :: rest.map TimeFrame.long_id)).drop
          (B * ((st.anns.length + (rest.length + 1)) / B)) =
          (rest.map TimeFrame.long_id).drop (B * (rest.length / B)) := by
        rw [hsplit, hqmul, List.drop_append_eq_append_drop,
          List.drop_eq_nil_of_le (by rw [hSlen]; exact Nat.le_add_left _ _), hSlen,
          Nat.add_sub_cancel, List.nil_append]
      have hDB : (st.view.textDocs ++
          (env.gen
            (st.prompts ++ [replaceAll contextPH (get_context env.sliceText tf 200) p])
            (st.images ++ [pick_image env.midFrame env.repFrame tf])).map pyStrip).length =
          st.view.textDocs.length + B := by
        rw [List.length_append, hD1]
      rw [hDB] at ha hd
      have hmkA : mkAligns env.tdIdOf st.view.textDocs.length
          ((st.anns ++ [tf.long_id]) ++
            (rest.map TimeFrame.long_id).take (B * (rest.length / B))) =
          mkAligns env.tdIdOf st.view.textDocs.length (st.anns ++ [tf.long_id]) ++
            mkAligns env.tdIdOf (st.view.textDocs.length + B)
              ((rest.map TimeFrame.long_id).take (B * (rest.length / B))) := by
        rw [mkAligns_append, hSlen]
      refine ⟨st', hrun, ?_, ?_, ?_, ?_, hpl', him', ?_, ?_⟩
      · rw [ha, htake, hmkA]
        simp [List.append_assoc]
      · rw [hd, hqmul]
        omega
      · exact ht
      · rw [hanns, hdrop]
      · rw [hmod, hmodE]
      · rw [hcalls, hq]
        simp [hfl, List.replicate_succ, List.append_assoc]
    · -- batch not yet full: keep accumulating (app.py line 108 else-path)
      have hlt2 : st.anns.length + 1 < B := by
        have h1 : st.prompts.length + 1 ≠ B := by
          simpa using hfl
        omega
      rw [if_neg hfl]
      dsimp only
      obtain ⟨st', hrun, ha, hd, ht, hanns, hpl', him', hmod, hcalls⟩ :=
        ih (fun t htm => hns t (List.mem_cons_of_mem _ htm))
          { st with
            prompts := st.prompts ++ [replaceAll contextPH (get_context env.sliceText tf 200) p],
            images := st.images ++ [pick_image env.midFrame env.repFrame tf],
            anns := st.anns ++ [tf.long_id] }
          (by simp [hpl]) (by simp [him]) (by simpa using hlt2)
      dsimp only at ha hd ht hanns hpl' him' hmod hcalls
      have hlen2 : (st.anns ++ [tf.long_id]).length = st.anns.length + 1 := by simp
      rw [hlen2] at ha hd hanns hmod hcalls
      have htot : st.anns.length + 1 + rest.length = st.anns.length + (rest.length + 1) := by
        omega
      rw [htot] at ha hd hanns hmod hcalls
      have hsplit : (st.anns ++ [tf.long_id]) ++ rest.map TimeFrame.long_id =
          st.anns ++ (tf.long_id :: rest.map TimeFrame.long_id) := by
        simp
      rw [hsplit] at ha hanns
      exact ⟨st', hrun, ha, hd, ht, hanns, hpl', him', hmod, hcalls⟩

theorem ceil_div_eq (B n : Nat) (hB : 0 < B) :
    (n + B - 1) / B = n / B + (if n % B = 0 then 0 else 1) := by
  obtain ⟨q, r, hrB, rfl⟩ : ∃ q r, r < B ∧ n = B * q + r :=
    ⟨n / B, n % B, Nat.mod_lt n hB, (Nat.div_add_mod n B).symm⟩
  rw [Nat.mul_add_div hB, Nat.mul_add_mod, Nat.mod_eq_of_lt hrB,
    Nat.div_eq_of_lt hrB]
  by_cases h0 : r = 0
  · subst h0
    rw [if_pos rfl, Nat.add_zero, Nat.add_sub_assoc hB,
      Nat.mul_add_div hB, Nat.div_eq_of_lt (by omega)]
  · rw [if_neg h0, Nat.add_assoc, Nat.add_sub_assoc (by omega : 1 ≤ r + B),
      show r + B - 1 = B * 1 + (r - 1) from by omega,
      Nat.mul_add_div hB, Nat.mul_add_div hB, Nat.div_eq_of_lt (by omega)]

/-- Reduction of `_annotate` to the time-frame loop when the transnet view
holds a non-empty time-frame list. -/
theorem annotate_tfs_eq {Image : Type} (env : Env Image) (pm : List (String × String))
    (dp vd : String) (fi : Option Nat) (B : Nat) (tfs : List TimeFrame)
    (htfs : tfs ≠ []) :
    annotate env ⟨pm, dp, fi, some B⟩ ⟨[vd], [⟨transnetApp, tfs⟩]⟩ =
      (run_tfs env pm dp B tfs (initSt Image)).map (finish env) := by
  simp only [annotate, resolveBatchSize, Option.getD_some]
  rw [List.filter_cons_of_pos (by simp)]
  dsimp only
  rw [if_neg htfs]

/-- Final state of `_annotate` on a non-empty span list with no skip-sentinel
span: alignments are `mkAligns` over all span ids, one text document per span,
and `ceil(N/B)` model invocations of the expected sizes. -/
theorem annotate_tfs_final {Image : Type} (env : Env Image) (pm : List (String × String))
    (dp vd : String) (fi : Option Nat) (tfs : List TimeFrame) (B : Nat)
    (hgen : ∀ ps imgs, (env.gen ps imgs).length = ps.length) (hB : 0 < B)
    (htfs : tfs ≠ []) (hns : ∀ tf ∈ tfs, get_prompt tf.label pm dp ≠ none) :
    ∃ stf, annotate env ⟨pm, dp, fi, some B⟩ ⟨[vd], [⟨transnetApp, tfs⟩]⟩ =
        Except.ok stf ∧
      stf.view.aligns = mkAligns env.tdIdOf 0 (tfs.map TimeFrame.long_id) ∧
      stf.view.textDocs.length = tfs.length ∧
      stf.calls.map (fun c => c.prompts.length) =
        List.replicate (tfs.length / B) B ++
          (if tfs.length % B = 0 then [] else [tfs.length % B]) ∧
      stf.calls.length = (tfs.length + B - 1) / B := by
  obtain ⟨st', hrun, ha, hd, ht, hanns, hpl', him', hmod, hcalls⟩ :=
    run_tfs_spec env pm dp B hgen hB tfs hns (initSt Image) rfl rfl hB
  simp only [initSt, emptyView] at ha hd ht hanns hpl' him' hmod hcalls
  simp only [List.nil_append, List.length_nil, Nat.zero_add,
    List.map_nil] at ha hd hanns hmod hcalls
  obtain ⟨hfa, hfd, hft, hfc⟩ := finish_spec env st' hgen hpl'
  refine ⟨finish env st', ?_, ?_, ?_, ?_, ?_⟩
  · rw [annotate_tfs_eq env pm dp vd fi B tfs htfs, hrun]
    rfl
  · have hmle : B * (tfs.length / B) ≤ tfs.length := by
      rw [Nat.mul_comm]
      exact Nat.div_mul_le_self _ _
    have htl : ((tfs.map TimeFrame.long_id).take (B * (tfs.length / B))).length =
        B * (tfs.length / B) := by
      rw [List.length_take, List.length_map]
      omega
    have hsplitAll : mkAligns env.tdIdOf 0 (tfs.map TimeFrame.long_id) =
        mkAligns env.tdIdOf 0 ((tfs.map TimeFrame.long_id).take (B * (tfs.length / B))) ++
          mkAligns env.tdIdOf
            (0 + ((tfs.map TimeFrame.long_id).take (B * (tfs.length / B))).length)
            ((tfs.map TimeFrame.long_id).drop (B * (tfs.length / B))) := by
      rw [← mkAligns_append, List.take_append_drop]
    rw [hfa, ha, hd, hanns, hsplitAll, htl, Nat.zero_add]
  · rw [hfd, hd, hmod]
    exact Nat.div_add_mod tfs.length B
  · rw [hfc, hcalls, hmod]
  · have h := congrArg List.length hfc
    simp only [List.length_map, List.length_append, apply_ite List.length,
      List.length_nil, List.length_cons, Nat.zero_add] at h
    have h2 := congrArg List.length hcalls
    simp only [List.length_map, List.length_replicate] at h2
    rw [hmod] at h
    rw [ceil_div_eq B tfs.length hB, h, h2]

/-- Batch-flush arithmetic on the fragment of runs that complete: over N spans
none of which resolves to the skip sentinel and with batch size B ≥ 1, the
model is invoked exactly ceil(N/B) times, every invocation except possibly the
last receives exactly B prompt/image/source triples, and a final non-empty
partial batch of size N mod B is flushed unconditionally.  This does NOT hold
for all runs in scope of the batch-flush claim: a skip-sentinel span aborts
the run before the final flush (see C1), and the first interval-branch flush
receives duplicated images (see C2).  `hgen` is the documented model contract
(one decoded string per prompt), which the invocation log never depends on. -/
theorem batch_flush_count {Image : Type} (env : Env Image) (pm : List (String × String))
    (dp vd : String) (fi : Option Nat) (tfs : List TimeFrame) (B : Nat)
    (hgen : ∀ ps imgs, (env.gen ps imgs).length = ps.length) (hB : 0 < B)
    (htfs : tfs ≠ []) (hns : ∀ tf ∈ tfs, get_prompt tf.label pm dp ≠ none) :
    callSizes (annotate env ⟨pm, dp, fi, some B⟩ ⟨[vd], [⟨transnetApp, tfs⟩]⟩) =
      some (List.replicate (tfs.length / B) B ++
        (if tfs.length % B = 0 then [] else [tfs.length % B])) ∧
    callCount (annotate env ⟨pm, dp, fi, some B⟩ ⟨[vd], [⟨transnetApp, tfs⟩]⟩) =
      some ((tfs.length + B - 1) / B) := by
  obtain ⟨stf, hann, _, _, hsz, hcnt⟩ :=
    annotate_tfs_final env pm dp vd fi tfs B hgen hB htfs hns
  rw [hann]
  exact ⟨congrArg some hsz, congrArg some hcnt⟩

theorem batch_flush_count_example :
    callSizes (annotate envW ⟨[], "Describe scene", none, some 2⟩
      ⟨["d1"], [⟨transnetApp, [tfW1, tfW2, tfW3]⟩]⟩) = some [2, 1] ∧
    callCount (annotate envW ⟨[], "Describe scene", none, some 2⟩
      ⟨["d1"], [⟨transnetApp, [tfW1, tfW2, tfW3]⟩]⟩) = some 2 := by
  have h := batch_flush_count envW [] "Describe scene" "d1" none [tfW1, tfW2, tfW3] 2
    (fun _ _ => rfl) (by omega) (by decide) (by decide)
  refine ⟨?_, ?_⟩
  · rw [h.1]; decide
  · rw [h.2]; decide

/-- Claim C4 (code bug): the batch-flush count claim fails on runs containing
a skip-sentinel span.  With spans [A, bars] where bars maps to the sentinel
and batchSize 8 (N = 1 processed non-skipped span), the code invokes the model
0 times instead of ceil(1/8) = 1: span A is accumulated, then the skipped span
raises AttributeError at app.py line 90 and the run aborts, so the pending
non-empty partial batch holding span A is never flushed.  (In the interval
branch, lines 127-132, the first flush additionally receives duplicated
images, see C2.)  This theorem evaluates the pipeline at the failing input;
`callCount = none` records that the aborted run leaves no invocation. -/
theorem C4_flush_aborted_by_skip :
    annotate envW ⟨[("bars", "-")], "Describe the frame.", none, some 8⟩
      ⟨["d1"], [⟨transnetApp, [tfW1, tfSkip]⟩]⟩ =
      Except.error "AttributeError: NoneType object has no attribute replace" ∧
    callCount (annotate envW ⟨[("bars", "-")], "Describe the frame.", none, some 8⟩
      ⟨["d1"], [⟨transnetApp, [tfW1, tfSkip]⟩]⟩) = none := by
  refine ⟨by decide, ?_⟩
  decide

/-- Claim C5: in a run over spans none of which resolves to the skip sentinel
(and under the documented model contract of one decoded string per prompt),
the i-th emitted alignment has as source the id of the i-th span in
resolver-output order and as target the id of the i-th newly created text
document; no reordering occurs within or across batches. -/
theorem C5_alignment_order {Image : Type} (env : Env Image) (pm : List (String × String))
    (dp vd : String) (fi : Option Nat) (tfs : List TimeFrame) (B : Nat)
    (hgen : ∀ ps imgs, (env.gen ps imgs).length = ps.length) (hB : 0 < B)
    (htfs : tfs ≠ []) (hns : ∀ tf ∈ tfs, get_prompt tf.label pm dp ≠ none) :
    alignSources (annotate env ⟨pm, dp, fi, some B⟩ ⟨[vd], [⟨transnetApp, tfs⟩]⟩) =
      some (tfs.map TimeFrame.long_id) ∧
    alignTargets (annotate env ⟨pm, dp, fi, some B⟩ ⟨[vd], [⟨transnetApp, tfs⟩]⟩) =
      some ((List.range tfs.length).map env.tdIdOf) ∧
    textCount (annotate env ⟨pm, dp, fi, some B⟩ ⟨[vd], [⟨transnetApp, tfs⟩]⟩) =
      some tfs.length ∧
    alignCount (annotate env ⟨pm, dp, fi, some B⟩ ⟨[vd], [⟨transnetApp, tfs⟩]⟩) =
      some tfs.length := by
  obtain ⟨stf, hann, hal, htd, _, _⟩ :=
    annotate_tfs_final env pm dp vd fi tfs B hgen hB htfs hns
  rw [hann]
  refine ⟨?_, ?_, ?_, ?_⟩
  · show some (stf.view.aligns.map Prod.fst) = _
    rw [hal, mkAligns_map_fst]
  · show some (stf.view.aligns.map Prod.snd) = _
    rw [hal, mkAligns_map_snd, List.length_map]
    exact congrArg some (List.map_congr_left (fun i _ => by rw [Nat.zero_add]))
  · exact congrArg some htd
  · show some stf.view.aligns.length = _
    rw [hal, mkAligns_length, List.length_map]

theorem C5_alignment_order_witness :
    alignSources (annotate envW ⟨[], "Describe scene", none, some 2⟩
      ⟨["d1"], [⟨transnetApp, [tfW1, tfW2, tfW3]⟩]⟩) =
      some ["v1:tf1", "v1:tf2", "v1:tf3"] ∧
    alignTargets (annotate envW ⟨[], "Describe scene", none, some 2⟩
      ⟨["d1"], [⟨transnetApp, [tfW1, tfW2, tfW3]⟩]⟩) =
      some ["td0", "td1", "td2"] ∧
    textCount (annotate envW ⟨[], "Describe scene", none, some 2⟩
      ⟨["d1"], [⟨transnetApp, [tfW1, tfW2, tfW3]⟩]⟩) = some 3 ∧
    alignCount (annotate envW ⟨[], "Describe scene", none, some 2⟩
      ⟨["d1"], [⟨transnetApp, [tfW1, tfW2, tfW3]⟩]⟩) = some 3 := by
  have h := C5_alignment_order envW [] "Describe scene" "d1" none [tfW1, tfW2, tfW3] 2
    (fun _ _ => rfl) (by omega) (by decide) (by decide)
  refine ⟨?_, ?_, ?_, ?_⟩
  · rw [h.1]; decide
  · rw [h.2.1]; decide
  · rw [h.2.2.1]; decide
  · rw [h.2.2.2]; decide
